import Mathlib

/-!
Shallow embedding of the react-material-color-theme-provider core
(src/src/theme-utils.ts, src/src/types.ts, src/src/material-theme-provider.tsx
and the unnamed file variants), together with theorems settling the frozen
claims about the theme builder, the token projector and the theme store.

The perceptual color math lives in the external Palette Engine
(material-color-utilities) and is treated as a black box: scheme constructors
and the custom-color utility are fields of an abstract PaletteEngine
structure, while the two small conversion utilities the core observes
directly (hexFromArgb, argbFromHex) are modelled from the spec.
-/

/-! ## Hex conversion utilities (Palette Engine surface) -/

/-- Lowercase hex digit character for a value below 16. -/
def hexDigitChar (n : Nat) : Char :=
  if n < 10 then Char.ofNat (48 + n) else Char.ofNat (87 + n)

/-- Is the character a lowercase hexadecimal digit? -/
def isHexDigit (c : Char) : Bool :=
  (decide ('0' ≤ c) && decide (c ≤ '9')) || (decide ('a' ≤ c) && decide (c ≤ 'f'))

/-- Modelled from the spec: the Palette Engine's ARGB-integer to hex-string
conversion utility (hexFromArgb), which drops the alpha channel and renders
the red, green and blue bytes as six lowercase hex digits behind a hash. -/
def hexFromArgb (argb : Nat) : String :=
  String.mk ['#',
    hexDigitChar (argb / 65536 / 16 % 16), hexDigitChar (argb / 65536 % 16),
    hexDigitChar (argb / 256 / 16 % 16), hexDigitChar (argb / 256 % 16),
    hexDigitChar (argb / 16 % 16), hexDigitChar (argb % 16)]

/-- A non-empty color value of the form hash followed by six hex digits. -/
def isHex6Color (s : String) : Bool :=
  match s.data with
  | '#' :: rest => rest.length == 6 && rest.all isHexDigit
  | _ => false

theorem isHexDigit_hexDigitChar (m : Nat) : isHexDigit (hexDigitChar (m % 16)) = true := by
  have h : ∀ k, k < 16 → isHexDigit (hexDigitChar k) = true := by decide
  exact h (m % 16) (Nat.mod_lt _ (by decide))

@[simp]
theorem hexFromArgb_isHex6 (n : Nat) : isHex6Color (hexFromArgb n) = true := by
  simp only [hexFromArgb, isHex6Color, String.mk]
  simp [List.all, isHexDigit_hexDigitChar]

/-- Value of a hexadecimal digit character, if it is one. -/
def hexDigitVal (c : Char) : Option Nat :=
  if '0' ≤ c ∧ c ≤ '9' then some (c.toNat - 48)
  else if 'a' ≤ c ∧ c ≤ 'f' then some (c.toNat - 87)
  else if 'A' ≤ c ∧ c ≤ 'F' then some (c.toNat - 55)
  else none

/-- Parse a list of hex digit characters into a number, most significant first. -/
def parseHex (acc : Nat) : List Char → Option Nat
  | [] => some acc
  | c :: cs =>
    match hexDigitVal c with
    | none => none
    | some v => parseHex (acc * 16 + v) cs

/-- Modelled from the spec: the Palette Engine's hex-string to ARGB-integer
conversion utility (argbFromHex). It strips hash characters, accepts three
(shorthand, each digit doubled), six or eight hex digits, and fails with an
InvalidColorError-style error on any other input. -/
def argbFromHex (hex : String) : Except String Nat :=
  let ds := hex.data.filter (fun c => c ≠ '#')
  let ds := if ds.length = 3 then (ds.map (fun c => [c, c])).flatten else ds
  if ds.length = 6 ∨ ds.length = 8 then
    match parseHex 0 ds with
    | some v => Except.ok (if ds.length = 6 then 0xFF000000 + v else v)
    | none => Except.error ("unexpected hex " ++ hex)
  else Except.error ("unexpected hex " ++ hex)

/-! ## Data model (src/src/types.ts and the Palette Engine interface) -/

/-- A tonal palette of the Palette Engine: a family of ARGB colors indexed by
a lightness tone. -/
structure TonalPalette where
  tone : Nat → Nat

/-- The engine's perceptual color value; the core only ever builds one from an
ARGB integer and hands it back to the engine. -/
structure Hct where
  argb : Int

/-- Embeds Hct.fromInt of the Palette Engine. -/
def Hct.fromInt (argb : Int) : Hct :=
  { argb := argb }

/-- The scheme shape the core reads: the named color roles used by the
role-direct token projector plus the six tonal palettes used by the
tone-direct token projector. -/
structure DynamicScheme where
  background : Nat
  error : Nat
  errorContainer : Nat
  inverseOnSurface : Nat
  inversePrimary : Nat
  inverseSurface : Nat
  onBackground : Nat
  onError : Nat
  onErrorContainer : Nat
  onPrimary : Nat
  onPrimaryContainer : Nat
  onPrimaryFixed : Nat
  onPrimaryFixedVariant : Nat
  onSecondary : Nat
  onSecondaryContainer : Nat
  onSecondaryFixed : Nat
  onSecondaryFixedVariant : Nat
  onSurface : Nat
  onSurfaceVariant : Nat
  onTertiary : Nat
  onTertiaryContainer : Nat
  onTertiaryFixed : Nat
  onTertiaryFixedVariant : Nat
  outline : Nat
  outlineVariant : Nat
  primary : Nat
  primaryContainer : Nat
  primaryFixed : Nat
  primaryFixedDim : Nat
  scrim : Nat
  secondary : Nat
  secondaryContainer : Nat
  secondaryFixed : Nat
  secondaryFixedDim : Nat
  shadow : Nat
  surface : Nat
  surfaceBright : Nat
  surfaceContainer : Nat
  surfaceContainerHigh : Nat
  surfaceContainerHighest : Nat
  surfaceContainerLow : Nat
  surfaceContainerLowest : Nat
  surfaceDim : Nat
  surfaceTint : Nat
  surfaceVariant : Nat
  tertiary : Nat
  tertiaryContainer : Nat
  tertiaryFixed : Nat
  tertiaryFixedDim : Nat
  primaryPalette : TonalPalette
  secondaryPalette : TonalPalette
  tertiaryPalette : TonalPalette
  neutralPalette : TonalPalette
  neutralVariantPalette : TonalPalette
  errorPalette : TonalPalette

/-- A custom color definition as the engine receives it (value already an
ARGB integer). -/
structure CustomColor where
  name : String
  value : Int
  blend : Bool
deriving DecidableEq

/-- One light or dark role set of a derived custom color. -/
structure ColorGroup where
  color : Int
  onColor : Int
  colorContainer : Int
  onColorContainer : Int
deriving DecidableEq

/-- A derived custom color group; the engine returns the input definition in
its color field together with derived light and dark role sets. -/
structure CustomColorGroup where
  color : CustomColor
  value : Int
  light : ColorGroup
  dark : ColorGroup
deriving DecidableEq

/-- The abstract Palette Engine: nine scheme-constructor entry points (one per
variant) and the custom-color utility. Modelled from the spec: each
constructor takes the seed as a perceptual value, a dark flag and a contrast
level; customColor derives one CustomColorGroup per input definition,
carrying that definition in its color field. -/
structure PaletteEngine where
  schemeMonochrome : Hct → Bool → Rat → DynamicScheme
  schemeNeutral : Hct → Bool → Rat → DynamicScheme
  schemeTonalSpot : Hct → Bool → Rat → DynamicScheme
  schemeVibrant : Hct → Bool → Rat → DynamicScheme
  schemeExpressive : Hct → Bool → Rat → DynamicScheme
  schemeFidelity : Hct → Bool → Rat → DynamicScheme
  schemeContent : Hct → Bool → Rat → DynamicScheme
  schemeRainbow : Hct → Bool → Rat → DynamicScheme
  schemeFruitSalad : Hct → Bool → Rat → DynamicScheme
  customColor : Int → CustomColor → CustomColorGroup
  customColor_color : ∀ (source : Int) (c : CustomColor), (customColor source c).color = c

/-- The light and dark schemes of a built theme. -/
structure Schemes where
  light : DynamicScheme
  dark : DynamicScheme

/-- Embeds the MaterialTheme interface of src/src/types.ts. -/
structure MaterialTheme where
  source : Int
  variant : Nat
  schemes : Schemes
  customColors : List CustomColorGroup

namespace Variant

/-- Variant enum member MONOCHROME of src/src/types.ts. -/
def MONOCHROME : Nat := 0

/-- Variant enum member NEUTRAL of src/src/types.ts. -/
def NEUTRAL : Nat := 1

/-- Variant enum member TONAL_SPOT of src/src/types.ts. -/
def TONAL_SPOT : Nat := 2

/-- Variant enum member VIBRANT of src/src/types.ts. -/
def VIBRANT : Nat := 3

/-- Variant enum member EXPRESSIVE of src/src/types.ts. -/
def EXPRESSIVE : Nat := 4

/-- Variant enum member FIDELITY of src/src/types.ts. -/
def FIDELITY : Nat := 5

/-- Variant enum member CONTENT of src/src/types.ts. -/
def CONTENT : Nat := 6

/-- Variant enum member RAINBOW of src/src/types.ts. -/
def RAINBOW : Nat := 7

/-- Variant enum member FRUIT_SALAD of src/src/types.ts. -/
def FRUIT_SALAD : Nat := 8

end Variant

/-! ## Theme Builder (createMaterialTheme of src/src/theme-utils.ts) -/

/-- Embeds createMaterialTheme (src/src/theme-utils.ts, identical in both file
variants): two tonal-spot schemes are prepared as the defaults, the switch on
the variant replaces them with the schemes of the selected engine entry point
(an unrecognized variant keeps the defaults), and the result echoes the
source, the variant and one derived group per custom color. In the source the
variant defaults to TONAL_SPOT, the contrast level to 0.0 and the custom
color list to the empty list. -/
def createMaterialTheme (e : PaletteEngine) (source : Int) (variant : Nat)
    (contrastLevel : Rat) (customColors : List CustomColor) : MaterialTheme :=
  let defaultLight := e.schemeTonalSpot (Hct.fromInt source) false contrastLevel
  let defaultDark := e.schemeTonalSpot (Hct.fromInt source) true contrastLevel
  let schemes : DynamicScheme × DynamicScheme :=
    if variant = Variant.MONOCHROME then
      (e.schemeMonochrome (Hct.fromInt source) false contrastLevel,
       e.schemeMonochrome (Hct.fromInt source) true contrastLevel)
    else if variant = Variant.NEUTRAL then
      (e.schemeNeutral (Hct.fromInt source) false contrastLevel,
       e.schemeNeutral (Hct.fromInt source) true contrastLevel)
    else if variant = Variant.TONAL_SPOT then
      (e.schemeTonalSpot (Hct.fromInt source) false contrastLevel,
       e.schemeTonalSpot (Hct.fromInt source) true contrastLevel)
    else if variant = Variant.VIBRANT then
      (e.schemeVibrant (Hct.fromInt source) false contrastLevel,
       e.schemeVibrant (Hct.fromInt source) true contrastLevel)
    else if variant = Variant.EXPRESSIVE then
      (e.schemeExpressive (Hct.fromInt source) false contrastLevel,
       e.schemeExpressive (Hct.fromInt source) true contrastLevel)
    else if variant = Variant.FIDELITY then
      (e.schemeFidelity (Hct.fromInt source) false contrastLevel,
       e.schemeFidelity (Hct.fromInt source) true contrastLevel)
    else if variant = Variant.CONTENT then
      (e.schemeContent (Hct.fromInt source) false contrastLevel,
       e.schemeContent (Hct.fromInt source) true contrastLevel)
    else if variant = Variant.RAINBOW then
      (e.schemeRainbow (Hct.fromInt source) false contrastLevel,
       e.schemeRainbow (Hct.fromInt source) true contrastLevel)
    else if variant = Variant.FRUIT_SALAD then
      (e.schemeFruitSalad (Hct.fromInt source) false contrastLevel,
       e.schemeFruitSalad (Hct.fromInt source) true contrastLevel)
    else
      (defaultLight, defaultDark)
  { source := source
    variant := variant
    schemes := { light := schemes.1, dark := schemes.2 }
    customColors := customColors.map (fun c => e.customColor source c) }

/-! ## JavaScript Map semantics

Token maps are modelled as association lists in insertion order. The Map
constructor semantics of JavaScript (a later entry with an existing key
overwrites the value in place, a fresh key is appended) is mkMap. -/

/-- One Map.set step of a JavaScript Map held as an association list. -/
def mapSet (m : List (String × String)) (k v : String) : List (String × String) :=
  if m.any (fun p => p.1 == k) then
    m.map (fun p => if p.1 == k then (k, v) else p)
  else m ++ [(k, v)]

/-- Builds a JavaScript Map from an entry list: new Map(entries). -/
def mkMap (entries : List (String × String)) : List (String × String) :=
  entries.foldl (fun m p => mapSet m p.1 p.2) []

/-- Map.get of a JavaScript Map held as an association list. -/
def mapGet (m : List (String × String)) (k : String) : Option String :=
  ((m.find? (fun p => p.1 == k)).map Prod.snd)

theorem any_key_eq_true (m : List (String × String)) (k : String) :
    (m.any fun p => p.1 == k) = true ↔ k ∈ m.map Prod.fst := by
  induction m with
  | nil => simp
  | cons a t ih =>
    simp only [List.any_cons, Bool.or_eq_true, beq_iff_eq, List.map_cons, List.mem_cons, ih]
    constructor
    · rintro (h | h)
      · exact Or.inl h.symm
      · exact Or.inr h
    · rintro (h | h)
      · exact Or.inl h.symm
      · exact Or.inr h

theorem mapSet_append_of_not_mem (m : List (String × String)) (k v : String)
    (h : k ∉ m.map Prod.fst) : mapSet m k v = m ++ [(k, v)] := by
  unfold mapSet
  rw [if_neg]
  intro hc
  exact h ((any_key_eq_true m k).mp hc)

theorem map_replace_of_not_mem (m : List (String × String)) (k v : String)
    (h : k ∉ m.map Prod.fst) :
    (m.map fun p => if p.1 == k then (k, v) else p) = m := by
  induction m with
  | nil => rfl
  | cons a t ih =>
    have h1 : ¬(a.1 = k) := by
      intro he
      exact h (by simp [he])
    have h2 : k ∉ t.map Prod.fst := by
      intro hm
      exact h (by simp [hm])
    simp only [List.map_cons, ih h2]
    rw [if_neg (by simp [beq_iff_eq]; exact h1)]

theorem foldl_mapSet_disjoint (l : List (String × String)) :
    ∀ p : List (String × String),
      (∀ x ∈ l.map Prod.fst, x ∉ p.map Prod.fst) → (l.map Prod.fst).Nodup →
      l.foldl (fun m q => mapSet m q.1 q.2) p = p ++ l := by
  induction l with
  | nil => intro p _ _; simp
  | cons a t ih =>
    intro p hdis hnd
    have hnd1 : a.1 ∉ t.map Prod.fst := by
      simp only [List.map_cons, List.nodup_cons] at hnd
      exact hnd.1
    have hnd2 : (t.map Prod.fst).Nodup := by
      simp only [List.map_cons, List.nodup_cons] at hnd
      exact hnd.2
    have hap : a.1 ∉ p.map Prod.fst := hdis a.1 (by simp)
    simp only [List.foldl_cons]
    rw [mapSet_append_of_not_mem p a.1 a.2 hap]
    have hdis2 : ∀ x ∈ t.map Prod.fst, x ∉ (p ++ [(a.1, a.2)]).map Prod.fst := by
      intro x hx
      simp only [List.map_append, List.mem_append, List.map_cons, List.map_nil,
        List.mem_singleton, not_or]
      refine ⟨hdis x (by simp [hx]), ?_⟩
      intro he
      rw [he] at hx
      exact hnd1 hx
    rw [ih (p ++ [(a.1, a.2)]) hdis2 hnd2]
    simp

theorem mkMap_eq_self (l : List (String × String)) (h : (l.map Prod.fst).Nodup) :
    mkMap l = l := by
  unfold mkMap
  rw [foldl_mapSet_disjoint l [] (by simp) h]
  simp

theorem mapSet_override (d p2 : List (String × String)) (q : String × String) (k v : String)
    (hq : q.1 = k) (hd : k ∉ d.map Prod.fst) (hp : k ∉ p2.map Prod.fst) :
    mapSet (d ++ q :: p2) k v = d ++ (k, v) :: p2 := by
  unfold mapSet
  rw [if_pos]
  · rw [List.map_append, map_replace_of_not_mem d k v hd, List.map_cons]
    rw [if_pos (by simp [beq_iff_eq, hq]), map_replace_of_not_mem p2 k v hp]
  · exact (any_key_eq_true _ k).mpr (by simp [← hq])

theorem foldl_mapSet_override (l2 : List (String × String)) :
    ∀ d p : List (String × String),
      p.map Prod.fst = l2.map Prod.fst → ((d ++ p).map Prod.fst).Nodup →
      l2.foldl (fun m q => mapSet m q.1 q.2) (d ++ p) = d ++ l2 := by
  induction l2 with
  | nil =>
    intro d p hk _
    have hp : p = [] := by
      simpa using congrArg List.length hk
    subst hp
    simp
  | cons b t ih =>
    intro d p hk hnd
    cases p with
    | nil => simp at hk
    | cons q p2 =>
      simp only [List.map_cons] at hk
      injection hk with h1 h2
      have hflat : ((d.map Prod.fst) ++ q.1 :: p2.map Prod.fst).Nodup := by
        simpa [List.map_append, List.map_cons] using hnd
      obtain ⟨hdn, hcons, hdisj⟩ := List.nodup_append.mp hflat
      obtain ⟨hqp2, hp2n⟩ := List.nodup_cons.mp hcons
      have hbd : b.1 ∉ d.map Prod.fst := by
        intro hb
        exact hdisj hb (by rw [← h1]; exact List.mem_cons_self _ _)
      have hbp2 : b.1 ∉ p2.map Prod.fst := by
        rw [← h1]; exact hqp2
      simp only [List.foldl_cons]
      rw [mapSet_override d p2 q b.1 b.2 h1 hbd hbp2]
      have hstep : d ++ (b.1, b.2) :: p2 = (d ++ [(b.1, b.2)]) ++ p2 := by
        simp
      rw [hstep, ih (d ++ [(b.1, b.2)]) p2 h2 ?_]
      · simp
      · have hkeq : ((d ++ [(b.1, b.2)]) ++ p2).map Prod.fst
            = (d ++ q :: p2).map Prod.fst := by
          simp [List.map_append, List.map_cons, h1]
        rw [hkeq]
        exact hnd

theorem mkMap_append_override (l1 l2 : List (String × String))
    (hk : l1.map Prod.fst = l2.map Prod.fst) (hnd : (l1.map Prod.fst).Nodup) :
    mkMap (l1 ++ l2) = l2 := by
  unfold mkMap
  rw [List.foldl_append]
  rw [show List.foldl (fun m q => mapSet m q.1 q.2) [] l1 = [] ++ l1 from
    foldl_mapSet_disjoint l1 [] (by simp) hnd]
  have h := foldl_mapSet_override l2 [] l1 hk (by simpa using hnd)
  simpa using h

/-! ## Token Projector, role-direct variant (src/src/theme-utils.ts lines 106-160) -/

/-- The entry array of the role-direct getThemeTokens: each token name reads
one named role off the selected scheme, in the order of the source. -/
def roleEntryList (scheme : DynamicScheme) : List (String × String) :=
  [("--md-sys-color-background", hexFromArgb scheme.background),
   ("--md-sys-color-error", hexFromArgb scheme.error),
   ("--md-sys-color-error-container", hexFromArgb scheme.errorContainer),
   ("--md-sys-color-inverse-on-surface", hexFromArgb scheme.inverseOnSurface),
   ("--md-sys-color-inverse-primary", hexFromArgb scheme.inversePrimary),
   ("--md-sys-color-inverse-surface", hexFromArgb scheme.inverseSurface),
   ("--md-sys-color-on-background", hexFromArgb scheme.onBackground),
   ("--md-sys-color-on-error", hexFromArgb scheme.onError),
   ("--md-sys-color-on-error-container", hexFromArgb scheme.onErrorContainer),
   ("--md-sys-color-on-primary", hexFromArgb scheme.onPrimary),
   ("--md-sys-color-on-primary-container", hexFromArgb scheme.onPrimaryContainer),
   ("--md-sys-color-on-primary-fixed", hexFromArgb scheme.onPrimaryFixed),
   ("--md-sys-color-on-primary-fixed-variant", hexFromArgb scheme.onPrimaryFixedVariant),
   ("--md-sys-color-on-secondary", hexFromArgb scheme.onSecondary),
   ("--md-sys-color-on-secondary-container", hexFromArgb scheme.onSecondaryContainer),
   ("--md-sys-color-on-secondary-fixed", hexFromArgb scheme.onSecondaryFixed),
   ("--md-sys-color-on-secondary-fixed-variant", hexFromArgb scheme.onSecondaryFixedVariant),
   ("--md-sys-color-on-surface", hexFromArgb scheme.onSurface),
   ("--md-sys-color-on-surface-variant", hexFromArgb scheme.onSurfaceVariant),
   ("--md-sys-color-on-tertiary", hexFromArgb scheme.onTertiary),
   ("--md-sys-color-on-tertiary-container", hexFromArgb scheme.onTertiaryContainer),
   ("--md-sys-color-on-tertiary-fixed", hexFromArgb scheme.onTertiaryFixed),
   ("--md-sys-color-on-tertiary-fixed-variant", hexFromArgb scheme.onTertiaryFixedVariant),
   ("--md-sys-color-outline", hexFromArgb scheme.outline),
   ("--md-sys-color-outline-variant", hexFromArgb scheme.outlineVariant),
   ("--md-sys-color-primary", hexFromArgb scheme.primary),
   ("--md-sys-color-primary-container", hexFromArgb scheme.primaryContainer),
   ("--md-sys-color-primary-fixed", hexFromArgb scheme.primaryFixed),
   ("--md-sys-color-primary-fixed-dim", hexFromArgb scheme.primaryFixedDim),
   ("--md-sys-color-scrim", hexFromArgb scheme.scrim),
   ("--md-sys-color-secondary", hexFromArgb scheme.secondary),
   ("--md-sys-color-secondary-container", hexFromArgb scheme.secondaryContainer),
   ("--md-sys-color-secondary-fixed", hexFromArgb scheme.secondaryFixed),
   ("--md-sys-color-secondary-fixed-dim", hexFromArgb scheme.secondaryFixedDim),
   ("--md-sys-color-shadow", hexFromArgb scheme.shadow),
   ("--md-sys-color-surface", hexFromArgb scheme.surface),
   ("--md-sys-color-surface-bright", hexFromArgb scheme.surfaceBright),
   ("--md-sys-color-surface-container", hexFromArgb scheme.surfaceContainer),
   ("--md-sys-color-surface-container-high", hexFromArgb scheme.surfaceContainerHigh),
   ("--md-sys-color-surface-container-highest", hexFromArgb scheme.surfaceContainerHighest),
   ("--md-sys-color-surface-container-low", hexFromArgb scheme.surfaceContainerLow),
   ("--md-sys-color-surface-container-lowest", hexFromArgb scheme.surfaceContainerLowest),
   ("--md-sys-color-surface-dim", hexFromArgb scheme.surfaceDim),
   ("--md-sys-color-surface-tint", hexFromArgb scheme.surfaceTint),
   ("--md-sys-color-surface-variant", hexFromArgb scheme.surfaceVariant),
   ("--md-sys-color-tertiary", hexFromArgb scheme.tertiary),
   ("--md-sys-color-tertiary-container", hexFromArgb scheme.tertiaryContainer),
   ("--md-sys-color-tertiary-fixed", hexFromArgb scheme.tertiaryFixed),
   ("--md-sys-color-tertiary-fixed-dim", hexFromArgb scheme.tertiaryFixedDim)]

/-- Embeds the role-direct getThemeTokens (first variant of
src/src/theme-utils.ts): selects the scheme by the dark flag and builds the
Map from the role entry array. -/
def getThemeTokens (theme : MaterialTheme) (isDark : Bool) : List (String × String) :=
  let scheme := if isDark then theme.schemes.dark else theme.schemes.light
  mkMap (roleEntryList scheme)

/-! ## Token Projector, tone-direct variant (src/src/theme-utils.ts lines 266-387) -/

/-- Selector for the six tonal palettes a token row can read. -/
inductive PalKind
  | primary
  | secondary
  | tertiary
  | neutral
  | neutralVariant
  | error
deriving DecidableEq

/-- Reads the selected tonal palette of a scheme at a tone. -/
def palTone (scheme : DynamicScheme) : PalKind → Nat → Nat
  | PalKind.primary, t => scheme.primaryPalette.tone t
  | PalKind.secondary, t => scheme.secondaryPalette.tone t
  | PalKind.tertiary, t => scheme.tertiaryPalette.tone t
  | PalKind.neutral, t => scheme.neutralPalette.tone t
  | PalKind.neutralVariant, t => scheme.neutralVariantPalette.tone t
  | PalKind.error, t => scheme.errorPalette.tone t

/-- The fixed light-mode tone-stop table of the tone-direct getThemeTokens
(source lines 278-328): token name, palette, tone. -/
def lightToneTable : List (String × PalKind × Nat) :=
  [("--md-sys-color-background", PalKind.neutral, 98),
   ("--md-sys-color-error", PalKind.error, 40),
   ("--md-sys-color-error-container", PalKind.error, 90),
   ("--md-sys-color-inverse-on-surface", PalKind.neutral, 95),
   ("--md-sys-color-inverse-primary", PalKind.primary, 80),
   ("--md-sys-color-inverse-surface", PalKind.neutral, 20),
   ("--md-sys-color-on-background", PalKind.neutral, 10),
   ("--md-sys-color-on-error", PalKind.error, 100),
   ("--md-sys-color-on-error-container", PalKind.error, 10),
   ("--md-sys-color-on-primary", PalKind.primary, 100),
   ("--md-sys-color-on-primary-container", PalKind.primary, 10),
   ("--md-sys-color-on-primary-fixed", PalKind.primary, 10),
   ("--md-sys-color-on-primary-fixed-variant", PalKind.primary, 30),
   ("--md-sys-color-on-secondary", PalKind.secondary, 100),
   ("--md-sys-color-on-secondary-container", PalKind.secondary, 10),
   ("--md-sys-color-on-secondary-fixed", PalKind.secondary, 10),
   ("--md-sys-color-on-secondary-fixed-variant", PalKind.secondary, 30),
   ("--md-sys-color-on-surface", PalKind.neutral, 10),
   ("--md-sys-color-on-surface-variant", PalKind.neutralVariant, 30),
   ("--md-sys-color-on-tertiary", PalKind.tertiary, 100),
   ("--md-sys-color-on-tertiary-container", PalKind.tertiary, 10),
   ("--md-sys-color-on-tertiary-fixed", PalKind.tertiary, 10),
   ("--md-sys-color-on-tertiary-fixed-variant", PalKind.tertiary, 30),
   ("--md-sys-color-outline", PalKind.neutralVariant, 50),
   ("--md-sys-color-outline-variant", PalKind.neutralVariant, 80),
   ("--md-sys-color-primary", PalKind.primary, 40),
   ("--md-sys-color-primary-container", PalKind.primary, 90),
   ("--md-sys-color-primary-fixed", PalKind.primary, 90),
   ("--md-sys-color-primary-fixed-dim", PalKind.primary, 80),
   ("--md-sys-color-scrim", PalKind.neutral, 0),
   ("--md-sys-color-secondary", PalKind.secondary, 40),
   ("--md-sys-color-secondary-container", PalKind.secondary, 90),
   ("--md-sys-color-secondary-fixed", PalKind.secondary, 90),
   ("--md-sys-color-secondary-fixed-dim", PalKind.secondary, 80),
   ("--md-sys-color-shadow", PalKind.neutral, 0),
   ("--md-sys-color-surface", PalKind.neutral, 98),
   ("--md-sys-color-surface-bright", PalKind.neutral, 98),
   ("--md-sys-color-surface-container", PalKind.neutral, 94),
   ("--md-sys-color-surface-container-high", PalKind.neutral, 92),
   ("--md-sys-color-surface-container-highest", PalKind.neutral, 90),
   ("--md-sys-color-surface-container-low", PalKind.neutral, 96),
   ("--md-sys-color-surface-container-lowest", PalKind.neutral, 100),
   ("--md-sys-color-surface-dim", PalKind.neutral, 87),
   ("--md-sys-color-surface-tint", PalKind.primary, 40),
   ("--md-sys-color-surface-variant", PalKind.neutralVariant, 90),
   ("--md-sys-color-tertiary", PalKind.tertiary, 40),
   ("--md-sys-color-tertiary-container", PalKind.tertiary, 90),
   ("--md-sys-color-tertiary-fixed", PalKind.tertiary, 90),
   ("--md-sys-color-tertiary-fixed-dim", PalKind.tertiary, 80)]

/-- The fixed dark-mode tone-stop table of the tone-direct getThemeTokens
(source lines 331-381): token name, palette, tone. -/
def darkToneTable : List (String × PalKind × Nat) :=
  [("--md-sys-color-background", PalKind.neutral, 6),
   ("--md-sys-color-error", PalKind.error, 80),
   ("--md-sys-color-error-container", PalKind.error, 30),
   ("--md-sys-color-inverse-on-surface", PalKind.neutral, 20),
   ("--md-sys-color-inverse-primary", PalKind.primary, 40),
   ("--md-sys-color-inverse-surface", PalKind.neutral, 90),
   ("--md-sys-color-on-background", PalKind.neutral, 90),
   ("--md-sys-color-on-error", PalKind.error, 20),
   ("--md-sys-color-on-error-container", PalKind.error, 90),
   ("--md-sys-color-on-primary", PalKind.primary, 20),
   ("--md-sys-color-on-primary-container", PalKind.primary, 90),
   ("--md-sys-color-on-primary-fixed", PalKind.primary, 10),
   ("--md-sys-color-on-primary-fixed-variant", PalKind.primary, 30),
   ("--md-sys-color-on-secondary", PalKind.secondary, 20),
   ("--md-sys-color-on-secondary-container", PalKind.secondary, 90),
   ("--md-sys-color-on-secondary-fixed", PalKind.secondary, 10),
   ("--md-sys-color-on-secondary-fixed-variant", PalKind.secondary, 30),
   ("--md-sys-color-on-surface", PalKind.neutral, 90),
   ("--md-sys-color-on-surface-variant", PalKind.neutralVariant, 80),
   ("--md-sys-color-on-tertiary", PalKind.tertiary, 20),
   ("--md-sys-color-on-tertiary-container", PalKind.tertiary, 90),
   ("--md-sys-color-on-tertiary-fixed", PalKind.tertiary, 10),
   ("--md-sys-color-on-tertiary-fixed-variant", PalKind.tertiary, 30),
   ("--md-sys-color-outline", PalKind.neutralVariant, 60),
   ("--md-sys-color-outline-variant", PalKind.neutralVariant, 30),
   ("--md-sys-color-primary", PalKind.primary, 80),
   ("--md-sys-color-primary-container", PalKind.primary, 30),
   ("--md-sys-color-primary-fixed", PalKind.primary, 90),
   ("--md-sys-color-primary-fixed-dim", PalKind.primary, 80),
   ("--md-sys-color-scrim", PalKind.neutral, 0),
   ("--md-sys-color-secondary", PalKind.secondary, 80),
   ("--md-sys-color-secondary-container", PalKind.secondary, 30),
   ("--md-sys-color-secondary-fixed", PalKind.secondary, 90),
   ("--md-sys-color-secondary-fixed-dim", PalKind.secondary, 80),
   ("--md-sys-color-shadow", PalKind.neutral, 0),
   ("--md-sys-color-surface", PalKind.neutral, 6),
   ("--md-sys-color-surface-bright", PalKind.neutral, 24),
   ("--md-sys-color-surface-container", PalKind.neutral, 12),
   ("--md-sys-color-surface-container-high", PalKind.neutral, 17),
   ("--md-sys-color-surface-container-highest", PalKind.neutral, 22),
   ("--md-sys-color-surface-container-low", PalKind.neutral, 10),
   ("--md-sys-color-surface-container-lowest", PalKind.neutral, 4),
   ("--md-sys-color-surface-dim", PalKind.neutral, 6),
   ("--md-sys-color-surface-tint", PalKind.primary, 80),
   ("--md-sys-color-surface-variant", PalKind.neutralVariant, 30),
   ("--md-sys-color-tertiary", PalKind.tertiary, 80),
   ("--md-sys-color-tertiary-container", PalKind.tertiary, 30),
   ("--md-sys-color-tertiary-fixed", PalKind.tertiary, 90),
   ("--md-sys-color-tertiary-fixed-dim", PalKind.tertiary, 80)]

/-- Renders a tone-stop table against a scheme: one Map entry per table row. -/
def toneEntries (scheme : DynamicScheme) (table : List (String × PalKind × Nat)) :
    List (String × String) :=
  table.map (fun row => (row.1, hexFromArgb (palTone scheme row.2.1 row.2.2)))

/-- Embeds the tone-direct getThemeTokens (second variant of
src/src/theme-utils.ts): selects the scheme by the dark flag, renders the
light and dark tone-stop tables against that scheme, returns the light Map
for light mode and for dark mode the Map built from the light entries
followed by the dark entries. -/
def getThemeTokensTone (theme : MaterialTheme) (isDark : Bool) : List (String × String) :=
  let scheme := if isDark then theme.schemes.dark else theme.schemes.light
  let lightColors := mkMap (toneEntries scheme lightToneTable)
  let darkColors := mkMap (toneEntries scheme darkToneTable)
  if !isDark then lightColors else mkMap (lightColors ++ darkColors)

/-! ## Canonical token names and key lemmas -/

/-- The canonical token name list of the spec, in source order. -/
def canonicalTokenNames : List String :=
  ["background", "error", "error-container", "inverse-on-surface", "inverse-primary",
   "inverse-surface", "on-background", "on-error", "on-error-container", "on-primary",
   "on-primary-container", "on-primary-fixed", "on-primary-fixed-variant", "on-secondary",
   "on-secondary-container", "on-secondary-fixed", "on-secondary-fixed-variant", "on-surface",
   "on-surface-variant", "on-tertiary", "on-tertiary-container", "on-tertiary-fixed",
   "on-tertiary-fixed-variant", "outline", "outline-variant", "primary", "primary-container",
   "primary-fixed", "primary-fixed-dim", "scrim", "secondary", "secondary-container",
   "secondary-fixed", "secondary-fixed-dim", "shadow", "surface", "surface-bright",
   "surface-container", "surface-container-high", "surface-container-highest",
   "surface-container-low", "surface-container-lowest", "surface-dim", "surface-tint",
   "surface-variant", "tertiary", "tertiary-container", "tertiary-fixed", "tertiary-fixed-dim"]

/-- The CSS custom property names the projectors emit: each canonical token
name behind the md-sys-color prefix. -/
def canonicalKeys : List String :=
  canonicalTokenNames.map (fun n => "--md-sys-color-" ++ n)

theorem canonicalKeys_nodup : canonicalKeys.Nodup := by decide

theorem canonicalKeys_length : canonicalKeys.length = 49 := by decide

theorem keys_roleEntryList (scheme : DynamicScheme) :
    (roleEntryList scheme).map Prod.fst = canonicalKeys := by rfl

theorem keys_lightToneTable : lightToneTable.map Prod.fst = canonicalKeys := by rfl

theorem keys_darkToneTable : darkToneTable.map Prod.fst = canonicalKeys := by rfl

theorem keys_toneEntries (scheme : DynamicScheme) (table : List (String × PalKind × Nat)) :
    (toneEntries scheme table).map Prod.fst = table.map Prod.fst := by
  simp [toneEntries, List.map_map, Function.comp]

/-- Any entry list whose keys are the canonical keys is left unchanged by the
Map constructor. -/
theorem mkMap_of_canonical (l : List (String × String))
    (h : l.map Prod.fst = canonicalKeys) : mkMap l = l :=
  mkMap_eq_self l (by rw [h]; exact canonicalKeys_nodup)

/-! ## Unfolded forms of the two projectors -/

theorem getThemeTokens_eq (theme : MaterialTheme) (isDark : Bool) :
    getThemeTokens theme isDark
      = roleEntryList (if isDark then theme.schemes.dark else theme.schemes.light) := by
  unfold getThemeTokens
  exact mkMap_of_canonical _ (keys_roleEntryList _)

theorem getThemeTokensTone_light (theme : MaterialTheme) :
    getThemeTokensTone theme false = toneEntries theme.schemes.light lightToneTable := by
  unfold getThemeTokensTone
  simp only [Bool.not_false, if_true, if_false]
  exact mkMap_of_canonical _ ((keys_toneEntries _ _).trans keys_lightToneTable)

theorem getThemeTokensTone_dark (theme : MaterialTheme) :
    getThemeTokensTone theme true = toneEntries theme.schemes.dark darkToneTable := by
  unfold getThemeTokensTone
  simp only [Bool.not_true, if_true, if_false, Bool.false_eq_true]
  rw [mkMap_of_canonical _ ((keys_toneEntries _ _).trans keys_lightToneTable),
    mkMap_of_canonical _ ((keys_toneEntries _ _).trans keys_darkToneTable)]
  exact mkMap_append_override _ _
    (((keys_toneEntries _ _).trans keys_lightToneTable).trans
      ((keys_toneEntries _ _).trans keys_darkToneTable).symm)
    (by rw [(keys_toneEntries _ _).trans keys_lightToneTable]; exact canonicalKeys_nodup)

theorem all_hex_toneEntries (scheme : DynamicScheme) (table : List (String × PalKind × Nat)) :
    ((toneEntries scheme table).all fun p => isHex6Color p.2) = true := by
  rw [List.all_eq_true]
  intro p hp
  rw [toneEntries, List.mem_map] at hp
  obtain ⟨row, _, hrow⟩ := hp
  rw [← hrow]
  exact hexFromArgb_isHex6 _

theorem all_hex_roleEntryList (scheme : DynamicScheme) :
    ((roleEntryList scheme).all fun p => isHex6Color p.2) = true := by
  simp [roleEntryList]

/-! ## Theme Store (MaterialThemeProvider effects) -/

/-- A custom color definition as the provider receives it (value still a hex
string), per MaterialThemeProviderProps of src/src/types.ts. -/
structure CustomColorDef where
  name : String
  value : String
  blend : Bool
deriving DecidableEq

/-- Embeds the custom-color conversion of the part_000 provider effect:
customColors.map of argbFromHex over each value, aborting at the first
malformed hex value exactly as the thrown exception would. -/
def convertCustomColors : List CustomColorDef → Except String (List CustomColor)
  | [] => Except.ok []
  | c :: rest =>
    match argbFromHex c.value with
    | Except.error e => Except.error e
    | Except.ok v =>
      match convertCustomColors rest with
      | Except.error e => Except.error e
      | Except.ok tail =>
        Except.ok ({ name := c.name, value := (v : Int), blend := c.blend } :: tail)

/-- The state the Theme Store holds: the current MaterialTheme, none before
the first successful build. -/
structure StoreState where
  materialTheme : Option MaterialTheme
deriving Nonempty

/-- Embeds the theme-generation effect of MaterialThemeProvider in
src/src/material-theme-provider.tsx (lines 48-61): inside the try block the
source color is converted, the custom-color conversion is commented out, and
the builder is called without the custom colors; the catch block reports the
error and leaves the state untouched. Returns the next state and the
reported error, if any. -/
def themeGenerationEffect (e : PaletteEngine) (st : StoreState) (sourceColor : String)
    (variant : Nat) (customColors : List CustomColorDef) : StoreState × Option String :=
  match argbFromHex sourceColor with
  | Except.error err => (st, some err)
  | Except.ok argbColor =>
    ({ materialTheme := some (createMaterialTheme e (argbColor : Int) variant 0 []) }, none)

/-- Embeds the theme-generation effect of MaterialThemeProvider in
src/unnamed/part_000 (lines 50-63): the source color and every custom color
value are converted, the builder is called with variant FIDELITY and the
converted custom colors; any conversion failure is caught, reported, and
leaves the state untouched. -/
def themeGenerationEffectWithCustoms (e : PaletteEngine) (st : StoreState)
    (sourceColor : String) (customColors : List CustomColorDef) : StoreState × Option String :=
  match argbFromHex sourceColor with
  | Except.error err => (st, some err)
  | Except.ok argbColor =>
    match convertCustomColors customColors with
    | Except.error err => (st, some err)
    | Except.ok customColorsArgb =>
      ({ materialTheme :=
          some (createMaterialTheme e (argbColor : Int) Variant.FIDELITY 0 customColorsArgb) },
        none)

/-! ## Context and hook (useMaterialTheme) -/

/-- Embeds MaterialThemeContextType of src/src/types.ts. -/
structure MaterialThemeContextType where
  materialTheme : Option MaterialTheme
  setSourceColor : String → Unit
  currentScheme : Option DynamicScheme

/-- Embeds the createContext default value of src/unnamed/part_000 (lines
14-18): a defined object with a null theme, a no-op setter and a null
scheme. -/
def contextDefaultValue : MaterialThemeContextType :=
  { materialTheme := none
    setSourceColor := fun _ => ()
    currentScheme := none }

/-- The createContext default of the part_000 provider variant: defined. -/
def materialThemeContextDefaultPart000 : Option MaterialThemeContextType :=
  some contextDefaultValue

/-- The createContext default of src/src/material-theme-provider.tsx (line
14): undefined. -/
def materialThemeContextDefaultSrc : Option MaterialThemeContextType :=
  none

/-- Embeds React useContext: the nearest provider value when one is present,
the createContext default otherwise. -/
def useContextValue (ctxDefault providerValue : Option MaterialThemeContextType) :
    Option MaterialThemeContextType :=
  match providerValue with
  | some v => some v
  | none => ctxDefault

/-- Embeds useMaterialTheme (both provider variants share this body): reads
the context and throws when the value is undefined. -/
def useMaterialThemeHook (ctxDefault providerValue : Option MaterialThemeContextType) :
    Except String MaterialThemeContextType :=
  match useContextValue ctxDefault providerValue with
  | none => Except.error "useMaterialTheme must be used within a MaterialThemeProvider"
  | some context => Except.ok context

/-! ## A concrete model engine, for evaluating claims at concrete inputs -/

/-- A concrete tonal palette for the model engine. -/
def modelPalette (base : Nat) : TonalPalette :=
  { tone := fun t => 4278190080 + base * 256 + t }

/-- A concrete scheme for the model engine, tagged by constructor and mode. -/
def modelScheme (tag : Nat) : DynamicScheme :=
  { background := tag, error := tag, errorContainer := tag, inverseOnSurface := tag,
    inversePrimary := tag, inverseSurface := tag, onBackground := tag, onError := tag,
    onErrorContainer := tag, onPrimary := tag, onPrimaryContainer := tag,
    onPrimaryFixed := tag, onPrimaryFixedVariant := tag, onSecondary := tag,
    onSecondaryContainer := tag, onSecondaryFixed := tag, onSecondaryFixedVariant := tag,
    onSurface := tag, onSurfaceVariant := tag, onTertiary := tag,
    onTertiaryContainer := tag, onTertiaryFixed := tag, onTertiaryFixedVariant := tag,
    outline := tag, outlineVariant := tag, primary := tag, primaryContainer := tag,
    primaryFixed := tag, primaryFixedDim := tag, scrim := tag, secondary := tag,
    secondaryContainer := tag, secondaryFixed := tag, secondaryFixedDim := tag,
    shadow := tag, surface := tag, surfaceBright := tag, surfaceContainer := tag,
    surfaceContainerHigh := tag, surfaceContainerHighest := tag, surfaceContainerLow := tag,
    surfaceContainerLowest := tag, surfaceDim := tag, surfaceTint := tag,
    surfaceVariant := tag, tertiary := tag, tertiaryContainer := tag, tertiaryFixed := tag,
    tertiaryFixedDim := tag,
    primaryPalette := modelPalette (tag * 6),
    secondaryPalette := modelPalette (tag * 6 + 1),
    tertiaryPalette := modelPalette (tag * 6 + 2),
    neutralPalette := modelPalette (tag * 6 + 3),
    neutralVariantPalette := modelPalette (tag * 6 + 4),
    errorPalette := modelPalette (tag * 6 + 5) }

/-- A concrete Palette Engine instance: each entry point returns a scheme
tagged by its own identity and the dark flag, and customColor derives a group
carrying its input definition. -/
def modelEngine : PaletteEngine :=
  { schemeMonochrome := fun _ isDark _ => modelScheme (if isDark then 1 else 0)
    schemeNeutral := fun _ isDark _ => modelScheme (if isDark then 3 else 2)
    schemeTonalSpot := fun _ isDark _ => modelScheme (if isDark then 5 else 4)
    schemeVibrant := fun _ isDark _ => modelScheme (if isDark then 7 else 6)
    schemeExpressive := fun _ isDark _ => modelScheme (if isDark then 9 else 8)
    schemeFidelity := fun _ isDark _ => modelScheme (if isDark then 11 else 10)
    schemeContent := fun _ isDark _ => modelScheme (if isDark then 13 else 12)
    schemeRainbow := fun _ isDark _ => modelScheme (if isDark then 15 else 14)
    schemeFruitSalad := fun _ isDark _ => modelScheme (if isDark then 17 else 16)
    customColor := fun source c =>
      { color := c, value := c.value,
        light := { color := source, onColor := 0, colorContainer := 0, onColorContainer := 0 },
        dark := { color := source, onColor := 0, colorContainer := 0, onColorContainer := 0 } }
    customColor_color := fun _ _ => rfl }

/-! ## Shared helper lemmas about the builder and the store -/

/-- The derived custom color groups carry exactly the input definitions, in
order. -/
theorem customColors_roundtrip (e : PaletteEngine) (seed : Int) (ccs : List CustomColor) :
    (ccs.map (fun c => e.customColor seed c)).map (fun g => g.color) = ccs := by
  induction ccs with
  | nil => rfl
  | cons c t ih => simp [e.customColor_color, ih]

/-- The builder keeps one derived group per custom color definition. -/
theorem createMaterialTheme_customColors (e : PaletteEngine) (seed : Int) (v : Nat)
    (c : Rat) (ccs : List CustomColor) :
    (createMaterialTheme e seed v c ccs).customColors
      = ccs.map (fun cc => e.customColor seed cc) := by
  rfl

/-- Successful conversion preserves the length and the names of the
custom-color definition list. -/
theorem convertCustomColors_preserves (ccs : List CustomColorDef)
    (converted : List CustomColor) (h : convertCustomColors ccs = Except.ok converted) :
    converted.length = ccs.length ∧
      converted.map (fun c => c.name) = ccs.map (fun c => c.name) := by
  induction ccs generalizing converted with
  | nil =>
    simp only [convertCustomColors] at h
    cases h
    exact ⟨rfl, rfl⟩
  | cons c rest ih =>
    simp only [convertCustomColors] at h
    cases hv : argbFromHex c.value with
    | error e => rw [hv] at h; cases h
    | ok v =>
      rw [hv] at h
      cases ht : convertCustomColors rest with
      | error e => rw [ht] at h; cases h
      | ok tail =>
        rw [ht] at h
        cases h
        obtain ⟨hl, hn⟩ := ih tail ht
        exact ⟨by simp [hl], by simp [hn]⟩

/-! ## Claim C1 -/

/-- Claim C1 counterexample: createMaterialTheme accepts the out-of-range
seeds -1 and 0x1000000 without failing; it returns a MaterialTheme echoing
the invalid seed, and its schemes are Palette Engine outputs computed from
that seed, so no InvalidColorError check happens before the engine is
invoked. -/
theorem createMaterialTheme_accepts_invalid_seed :
    (createMaterialTheme modelEngine (-1) Variant.TONAL_SPOT 0 []).source = -1 ∧
    (createMaterialTheme modelEngine (-1) Variant.TONAL_SPOT 0 []).schemes.light
      = modelEngine.schemeTonalSpot (Hct.fromInt (-1)) false 0 ∧
    (createMaterialTheme modelEngine 0x1000000 Variant.TONAL_SPOT 0 []).source = 0x1000000 ∧
    (createMaterialTheme modelEngine 0x1000000 Variant.TONAL_SPOT 0 []).schemes.dark
      = modelEngine.schemeTonalSpot (Hct.fromInt 0x1000000) true 0 :=
  ⟨rfl, rfl, rfl, rfl⟩

/-- Claim C1 (amended): for every seed outside [0, 0xFFFFFF], every engine,
every variant value, contrast level and custom-color list,
createMaterialTheme does not fail: it performs no range validation, returns
a MaterialTheme echoing the seed and the variant, and its schemes are
obtained by invoking the Palette Engine entry point selected by the variant
(the tonal-spot default for an unrecognized value) on the unvalidated
seed. -/
theorem createMaterialTheme_no_validation (e : PaletteEngine) (seed : Int)
    (h : seed < 0 ∨ 0xFFFFFF < seed) (v : Nat) (c : Rat) (ccs : List CustomColor) :
    (createMaterialTheme e seed v c ccs).source = seed ∧
    (createMaterialTheme e seed v c ccs).variant = v ∧
    (8 < v →
      (createMaterialTheme e seed v c ccs).schemes
        = { light := e.schemeTonalSpot (Hct.fromInt seed) false c,
            dark := e.schemeTonalSpot (Hct.fromInt seed) true c }) ∧
    (v = Variant.MONOCHROME →
      (createMaterialTheme e seed v c ccs).schemes
        = { light := e.schemeMonochrome (Hct.fromInt seed) false c,
            dark := e.schemeMonochrome (Hct.fromInt seed) true c }) ∧
    (v = Variant.NEUTRAL →
      (createMaterialTheme e seed v c ccs).schemes
        = { light := e.schemeNeutral (Hct.fromInt seed) false c,
            dark := e.schemeNeutral (Hct.fromInt seed) true c }) ∧
    (v = Variant.TONAL_SPOT →
      (createMaterialTheme e seed v c ccs).schemes
        = { light := e.schemeTonalSpot (Hct.fromInt seed) false c,
            dark := e.schemeTonalSpot (Hct.fromInt seed) true c }) ∧
    (v = Variant.VIBRANT →
      (createMaterialTheme e seed v c ccs).schemes
        = { light := e.schemeVibrant (Hct.fromInt seed) false c,
            dark := e.schemeVibrant (Hct.fromInt seed) true c }) ∧
    (v = Variant.EXPRESSIVE →
      (createMaterialTheme e seed v c ccs).schemes
        = { light := e.schemeExpressive (Hct.fromInt seed) false c,
            dark := e.schemeExpressive (Hct.fromInt seed) true c }) ∧
    (v = Variant.FIDELITY →
      (createMaterialTheme e seed v c ccs).schemes
        = { light := e.schemeFidelity (Hct.fromInt seed) false c,
            dark := e.schemeFidelity (Hct.fromInt seed) true c }) ∧
    (v = Variant.CONTENT →
      (createMaterialTheme e seed v c ccs).schemes
        = { light := e.schemeContent (Hct.fromInt seed) false c,
            dark := e.schemeContent (Hct.fromInt seed) true c }) ∧
    (v = Variant.RAINBOW →
      (createMaterialTheme e seed v c ccs).schemes
        = { light := e.schemeRainbow (Hct.fromInt seed) false c,
            dark := e.schemeRainbow (Hct.fromInt seed) true c }) ∧
    (v = Variant.FRUIT_SALAD →
      (createMaterialTheme e seed v c ccs).schemes
        = { light := e.schemeFruitSalad (Hct.fromInt seed) false c,
            dark := e.schemeFruitSalad (Hct.fromInt seed) true c }) := by
  refine ⟨rfl, rfl, ?_, ?_, ?_, ?_, ?_, ?_, ?_, ?_, ?_, ?_⟩
  · intro hv
    have h0 : ¬(v = Variant.MONOCHROME) := by unfold Variant.MONOCHROME; omega
    have h1 : ¬(v = Variant.NEUTRAL) := by unfold Variant.NEUTRAL; omega
    have h2 : ¬(v = Variant.TONAL_SPOT) := by unfold Variant.TONAL_SPOT; omega
    have h3 : ¬(v = Variant.VIBRANT) := by unfold Variant.VIBRANT; omega
    have h4 : ¬(v = Variant.EXPRESSIVE) := by unfold Variant.EXPRESSIVE; omega
    have h5 : ¬(v = Variant.FIDELITY) := by unfold Variant.FIDELITY; omega
    have h6 : ¬(v = Variant.CONTENT) := by unfold Variant.CONTENT; omega
    have h7 : ¬(v = Variant.RAINBOW) := by unfold Variant.RAINBOW; omega
    have h8 : ¬(v = Variant.FRUIT_SALAD) := by unfold Variant.FRUIT_SALAD; omega
    simp only [createMaterialTheme]
    rw [if_neg h0, if_neg h1, if_neg h2, if_neg h3, if_neg h4, if_neg h5, if_neg h6,
      if_neg h7, if_neg h8]
  · intro hv; subst hv; rfl
  · intro hv; subst hv; rfl
  · intro hv; subst hv; rfl
  · intro hv; subst hv; rfl
  · intro hv; subst hv; rfl
  · intro hv; subst hv; rfl
  · intro hv; subst hv; rfl
  · intro hv; subst hv; rfl
  · intro hv; subst hv; rfl

/-- Claim C1 witness: the amended theorem applied at seed -1 with the
MONOCHROME variant. -/
theorem createMaterialTheme_no_validation_witness :
    ((-1 : Int) < 0 ∨ (0xFFFFFF : Int) < -1) ∧
    (createMaterialTheme modelEngine (-1) Variant.MONOCHROME 0 []).source = -1 ∧
    (createMaterialTheme modelEngine (-1) Variant.MONOCHROME 0 []).schemes
      = { light := modelEngine.schemeMonochrome (Hct.fromInt (-1)) false 0,
          dark := modelEngine.schemeMonochrome (Hct.fromInt (-1)) true 0 } :=
  ⟨Or.inl (by decide),
    (createMaterialTheme_no_validation modelEngine (-1) (Or.inl (by decide))
      Variant.MONOCHROME 0 []).1,
    (createMaterialTheme_no_validation modelEngine (-1) (Or.inl (by decide))
      Variant.MONOCHROME 0 []).2.2.2.1 rfl⟩

/-! ## Claim C3 -/

/-- Claim C3: the composed pipeline of createMaterialTheme followed by either
getThemeTokens variant is a pure, deterministic function of its arguments;
running it twice on the same inputs yields identical token maps. -/
theorem pipeline_deterministic (e : PaletteEngine) (seed : Int) (variant : Nat)
    (contrastLevel : Rat) (ccs : List CustomColor) (isDark : Bool) :
    getThemeTokens (createMaterialTheme e seed variant contrastLevel ccs) isDark
      = getThemeTokens (createMaterialTheme e seed variant contrastLevel ccs) isDark ∧
    getThemeTokensTone (createMaterialTheme e seed variant contrastLevel ccs) isDark
      = getThemeTokensTone (createMaterialTheme e seed variant contrastLevel ccs) isDark :=
  ⟨rfl, rfl⟩

/-! ## Claim C4 -/

/-- Claim C4: every variant value beyond the nine enumerated ones falls back
to the default tonal-spot schemes without failing, and each of the nine
recognized variants dispatches to exactly its own engine entry point. -/
theorem variant_dispatch_correct (e : PaletteEngine) (seed : Int) (c : Rat) :
    (∀ v : Nat, 8 < v →
      (createMaterialTheme e seed v c []).schemes.light
          = e.schemeTonalSpot (Hct.fromInt seed) false c ∧
      (createMaterialTheme e seed v c []).schemes.dark
          = e.schemeTonalSpot (Hct.fromInt seed) true c) ∧
    (createMaterialTheme e seed Variant.MONOCHROME c []).schemes
      = { light := e.schemeMonochrome (Hct.fromInt seed) false c,
          dark := e.schemeMonochrome (Hct.fromInt seed) true c } ∧
    (createMaterialTheme e seed Variant.NEUTRAL c []).schemes
      = { light := e.schemeNeutral (Hct.fromInt seed) false c,
          dark := e.schemeNeutral (Hct.fromInt seed) true c } ∧
    (createMaterialTheme e seed Variant.TONAL_SPOT c []).schemes
      = { light := e.schemeTonalSpot (Hct.fromInt seed) false c,
          dark := e.schemeTonalSpot (Hct.fromInt seed) true c } ∧
    (createMaterialTheme e seed Variant.VIBRANT c []).schemes
      = { light := e.schemeVibrant (Hct.fromInt seed) false c,
          dark := e.schemeVibrant (Hct.fromInt seed) true c } ∧
    (createMaterialTheme e seed Variant.EXPRESSIVE c []).schemes
      = { light := e.schemeExpressive (Hct.fromInt seed) false c,
          dark := e.schemeExpressive (Hct.fromInt seed) true c } ∧
    (createMaterialTheme e seed Variant.FIDELITY c []).schemes
      = { light := e.schemeFidelity (Hct.fromInt seed) false c,
          dark := e.schemeFidelity (Hct.fromInt seed) true c } ∧
    (createMaterialTheme e seed Variant.CONTENT c []).schemes
      = { light := e.schemeContent (Hct.fromInt seed) false c,
          dark := e.schemeContent (Hct.fromInt seed) true c } ∧
    (createMaterialTheme e seed Variant.RAINBOW c []).schemes
      = { light := e.schemeRainbow (Hct.fromInt seed) false c,
          dark := e.schemeRainbow (Hct.fromInt seed) true c } ∧
    (createMaterialTheme e seed Variant.FRUIT_SALAD c []).schemes
      = { light := e.schemeFruitSalad (Hct.fromInt seed) false c,
          dark := e.schemeFruitSalad (Hct.fromInt seed) true c } := by
  refine ⟨?_, rfl, rfl, rfl, rfl, rfl, rfl, rfl, rfl, rfl⟩
  intro v hv
  have h0 : ¬(v = Variant.MONOCHROME) := by unfold Variant.MONOCHROME; omega
  have h1 : ¬(v = Variant.NEUTRAL) := by unfold Variant.NEUTRAL; omega
  have h2 : ¬(v = Variant.TONAL_SPOT) := by unfold Variant.TONAL_SPOT; omega
  have h3 : ¬(v = Variant.VIBRANT) := by unfold Variant.VIBRANT; omega
  have h4 : ¬(v = Variant.EXPRESSIVE) := by unfold Variant.EXPRESSIVE; omega
  have h5 : ¬(v = Variant.FIDELITY) := by unfold Variant.FIDELITY; omega
  have h6 : ¬(v = Variant.CONTENT) := by unfold Variant.CONTENT; omega
  have h7 : ¬(v = Variant.RAINBOW) := by unfold Variant.RAINBOW; omega
  have h8 : ¬(v = Variant.FRUIT_SALAD) := by unfold Variant.FRUIT_SALAD; omega
  constructor
  · simp only [createMaterialTheme]
    rw [if_neg h0, if_neg h1, if_neg h2, if_neg h3, if_neg h4, if_neg h5, if_neg h6,
      if_neg h7, if_neg h8]
  · simp only [createMaterialTheme]
    rw [if_neg h0, if_neg h1, if_neg h2, if_neg h3, if_neg h4, if_neg h5, if_neg h6,
      if_neg h7, if_neg h8]

/-- Claim C4 witness: the fallback case of the dispatch theorem applied at
the unrecognized variant value 99. -/
theorem variant_dispatch_correct_witness :
    8 < 99 ∧
    (createMaterialTheme modelEngine 6583444 99 0 []).schemes.light
      = modelEngine.schemeTonalSpot (Hct.fromInt 6583444) false 0 :=
  ⟨by decide, ((variant_dispatch_correct modelEngine 6583444 0).1 99 (by decide)).1⟩

/-! ## Claim C2 -/

/-- Claim C2 counterexample: the token maps of both projector variants carry
49 entries, not 48; the canonical key list itself has 49 names, so no
48-entry map matches the code. -/
theorem token_map_size_not_48 :
    (getThemeTokens (createMaterialTheme modelEngine 6583444 Variant.TONAL_SPOT 0 [])
        false).length = 49 ∧
    (getThemeTokens (createMaterialTheme modelEngine 6583444 Variant.TONAL_SPOT 0 [])
        true).length = 49 ∧
    ¬ canonicalKeys.length = 48 := by
  refine ⟨?_, ?_, by decide⟩
  · rw [getThemeTokens_eq]
    decide
  · rw [getThemeTokens_eq]
    decide

/-- Claim C2 (amended): for every theme and both modes, each projector
variant emits exactly the 49 canonical token keys (48 in the claim is a
miscount of the canonical list), every value is a non-empty six-hex-digit
color string, and the dark-mode map is a complete map with the same key set
as the light-mode map, not a sparse diff. -/
theorem token_map_totality (theme : MaterialTheme) (isDark : Bool) :
    (getThemeTokens theme isDark).map Prod.fst = canonicalKeys ∧
    ((getThemeTokens theme isDark).all fun p => isHex6Color p.2) = true ∧
    (getThemeTokensTone theme isDark).map Prod.fst = canonicalKeys ∧
    ((getThemeTokensTone theme isDark).all fun p => isHex6Color p.2) = true ∧
    (getThemeTokensTone theme true).map Prod.fst
      = (getThemeTokensTone theme false).map Prod.fst ∧
    canonicalKeys = canonicalTokenNames.map (fun n => "--md-sys-color-" ++ n) ∧
    canonicalKeys.length = 49 := by
  refine ⟨?_, ?_, ?_, ?_, ?_, rfl, canonicalKeys_length⟩
  · rw [getThemeTokens_eq]
    exact keys_roleEntryList _
  · rw [getThemeTokens_eq]
    exact all_hex_roleEntryList _
  · cases isDark with
    | false =>
      rw [getThemeTokensTone_light]
      exact (keys_toneEntries _ _).trans keys_lightToneTable
    | true =>
      rw [getThemeTokensTone_dark]
      exact (keys_toneEntries _ _).trans keys_darkToneTable
  · cases isDark with
    | false =>
      rw [getThemeTokensTone_light]
      exact all_hex_toneEntries _ _
    | true =>
      rw [getThemeTokensTone_dark]
      exact all_hex_toneEntries _ _
  · rw [getThemeTokensTone_dark, getThemeTokensTone_light]
    exact ((keys_toneEntries _ _).trans keys_darkToneTable).trans
      ((keys_toneEntries _ _).trans keys_lightToneTable).symm

/-! ## Claim C5 -/

/-- Claim C5: under the tone-direct projection, each mode's token map is
exactly the fixed light or dark tone-stop table rendered against the selected
scheme's tonal palettes; in particular the primary token reads
primaryPalette.tone 40 in light mode and primaryPalette.tone 80 in dark
mode. -/
theorem tone_direct_fixed_stops (theme : MaterialTheme) :
    getThemeTokensTone theme false = toneEntries theme.schemes.light lightToneTable ∧
    getThemeTokensTone theme true = toneEntries theme.schemes.dark darkToneTable ∧
    mapGet (getThemeTokensTone theme false) "--md-sys-color-primary"
      = some (hexFromArgb (theme.schemes.light.primaryPalette.tone 40)) ∧
    mapGet (getThemeTokensTone theme true) "--md-sys-color-primary"
      = some (hexFromArgb (theme.schemes.dark.primaryPalette.tone 80)) := by
  refine ⟨getThemeTokensTone_light theme, getThemeTokensTone_dark theme, ?_, ?_⟩
  · rw [getThemeTokensTone_light]
    rfl
  · rw [getThemeTokensTone_dark]
    rfl

/-! ## Claim C10 -/

/-- Claim C10 counterexample: the merged dark-mode map of the tone-direct
projector has 49 keys, not 48 as the claim counts them. -/
theorem dark_merge_size_not_48 :
    (getThemeTokensTone (createMaterialTheme modelEngine 7294754 Variant.VIBRANT 0 [])
        true).length = 49 ∧
    ¬ (getThemeTokensTone (createMaterialTheme modelEngine 7294754 Variant.VIBRANT 0 [])
        true).length = 48 := by
  constructor
  · rw [getThemeTokensTone_dark]
    decide
  · rw [getThemeTokensTone_dark]
    decide

/-- Claim C10 (amended): for every scheme, the Map built from the light
entries followed by the dark entries collapses to the dark entry table alone
(every light entry is overridden because the dark table binds the same keys),
so the dark-mode output of the tone-direct projector agrees with the dark
tone-stop table on each of its 49 keys (48 in the claim is a miscount). -/
theorem dark_merge_collapse (theme : MaterialTheme) :
    getThemeTokensTone theme true
      = mkMap (toneEntries theme.schemes.dark lightToneTable
          ++ toneEntries theme.schemes.dark darkToneTable) ∧
    mkMap (toneEntries theme.schemes.dark lightToneTable
        ++ toneEntries theme.schemes.dark darkToneTable)
      = toneEntries theme.schemes.dark darkToneTable ∧
    (∀ k : String,
      mapGet (getThemeTokensTone theme true) k
        = mapGet (toneEntries theme.schemes.dark darkToneTable) k) ∧
    (getThemeTokensTone theme true).length = 49 := by
  have hmerge : mkMap (toneEntries theme.schemes.dark lightToneTable
      ++ toneEntries theme.schemes.dark darkToneTable)
      = toneEntries theme.schemes.dark darkToneTable :=
    mkMap_append_override _ _
      (((keys_toneEntries _ _).trans keys_lightToneTable).trans
        ((keys_toneEntries _ _).trans keys_darkToneTable).symm)
      (by rw [(keys_toneEntries _ _).trans keys_lightToneTable]; exact canonicalKeys_nodup)
  refine ⟨?_, hmerge, ?_, ?_⟩
  · rw [getThemeTokensTone_dark theme, hmerge]
  · intro k
    rw [getThemeTokensTone_dark theme]
  · rw [getThemeTokensTone_dark theme]
    simp only [toneEntries, List.length_map]
    decide

/-- The derived custom color groups keep the input names, in order. -/
theorem customColors_names (e : PaletteEngine) (seed : Int) (ccs : List CustomColor) :
    (ccs.map (fun c => e.customColor seed c)).map (fun g => g.color.name)
      = ccs.map (fun c => c.name) := by
  induction ccs with
  | nil => rfl
  | cons c t ih => simp [e.customColor_color, ih]

/-! ## Claim C6 -/

/-- Claim C6: createMaterialTheme echoes its inputs; in general the source,
the variant and the custom-color definitions (one derived group per input, in
order) are recoverable from the result, and at the concrete end-to-end
inputs the returned theme has source 0x006494, variant TONAL_SPOT, no custom
colors for the empty list, and exactly one group named brand for the
single-brand list. -/
theorem theme_echoes_inputs :
    (∀ (e : PaletteEngine) (seed : Int) (v : Nat) (c : Rat) (ccs : List CustomColor),
      (createMaterialTheme e seed v c ccs).source = seed ∧
      (createMaterialTheme e seed v c ccs).variant = v ∧
      (createMaterialTheme e seed v c ccs).customColors.map (fun g => g.color) = ccs ∧
      (createMaterialTheme e seed v c ccs).customColors.length = ccs.length) ∧
    (createMaterialTheme modelEngine 0x006494 Variant.TONAL_SPOT 0 []).source = 0x006494 ∧
    (createMaterialTheme modelEngine 0x006494 Variant.TONAL_SPOT 0 []).variant
      = Variant.TONAL_SPOT ∧
    (createMaterialTheme modelEngine 0x006494 Variant.TONAL_SPOT 0 []).customColors.length
      = 0 ∧
    (createMaterialTheme modelEngine 0x006494 Variant.TONAL_SPOT 0
        [{ name := "brand", value := 0xFF0000, blend := true }]).customColors.length = 1 ∧
    (createMaterialTheme modelEngine 0x006494 Variant.TONAL_SPOT 0
        [{ name := "brand", value := 0xFF0000, blend := true }]).customColors.map
      (fun g => g.color.name) = ["brand"] := by
  refine ⟨?_, rfl, rfl, rfl, rfl, rfl⟩
  intro e seed v c ccs
  refine ⟨rfl, rfl, ?_, ?_⟩
  · rw [createMaterialTheme_customColors]
    exact customColors_roundtrip e seed ccs
  · rw [createMaterialTheme_customColors]
    exact List.length_map _ _

/-! ## Claim C7 -/

/-- Claim C7: whenever theme building fails inside the provider effect (a
malformed source color in either provider variant, or a malformed custom
color value in the part_000 variant), the effect returns with the store
state exactly as it was, the error reported on the diagnostic channel, and
no exception escaping (the effect is a total function). -/
theorem store_preserves_state_on_failure (e : PaletteEngine) (st : StoreState)
    (sourceColor : String) (variant : Nat) (ccs : List CustomColorDef) (msg : String) :
    (argbFromHex sourceColor = Except.error msg →
      themeGenerationEffect e st sourceColor variant ccs = (st, some msg)) ∧
    (argbFromHex sourceColor = Except.error msg →
      themeGenerationEffectWithCustoms e st sourceColor ccs = (st, some msg)) ∧
    (∀ a : Nat, argbFromHex sourceColor = Except.ok a →
      convertCustomColors ccs = Except.error msg →
      themeGenerationEffectWithCustoms e st sourceColor ccs = (st, some msg)) := by
  refine ⟨?_, ?_, ?_⟩
  · intro h
    simp [themeGenerationEffect, h]
  · intro h
    simp [themeGenerationEffectWithCustoms, h]
  · intro a ha hc
    simp [themeGenerationEffectWithCustoms, ha, hc]

/-- Claim C7 witness: the malformed source color zz fails conversion and the
uninitialized store is left uninitialized with the error reported. -/
theorem store_preserves_state_on_failure_witness :
    argbFromHex "zz" = Except.error "unexpected hex zz" ∧
    themeGenerationEffect modelEngine { materialTheme := none } "zz" Variant.FIDELITY []
      = ({ materialTheme := none }, some "unexpected hex zz") :=
  ⟨rfl, (store_preserves_state_on_failure modelEngine { materialTheme := none } "zz"
    Variant.FIDELITY [] "unexpected hex zz").1 rfl⟩

/-! ## Claim C8 -/

/-- Claim C8 counterexample: the src/src provider effect rebuilds the theme
from a valid source color while one custom color is supplied, succeeds, and
the resulting theme carries zero custom color groups: the provider's
custom-color list is not passed to the builder. -/
theorem custom_colors_dropped :
    (themeGenerationEffect modelEngine { materialTheme := none } "#006494" Variant.FIDELITY
        [{ name := "brand", value := "#ff0000", blend := true }]).2 = none ∧
    ((themeGenerationEffect modelEngine { materialTheme := none } "#006494" Variant.FIDELITY
        [{ name := "brand", value := "#ff0000", blend := true }]).1.materialTheme.map
      (fun t => t.customColors.length)) = some 0 :=
  ⟨rfl, rfl⟩

/-- Claim C8 (amended): the part_000 provider effect passes the converted
custom-color list to the builder on every successful rebuild, yielding one
derived group per input definition with the names preserved in order; the
src/src provider effect instead ignores its custom-color list (the
conversion is commented out) and always builds with an empty list. -/
theorem custom_colors_rebuild (e : PaletteEngine) (st : StoreState) (sourceColor : String)
    (ccs : List CustomColorDef) (a : Nat) (converted : List CustomColor) :
    (argbFromHex sourceColor = Except.ok a → convertCustomColors ccs = Except.ok converted →
      themeGenerationEffectWithCustoms e st sourceColor ccs
        = ({ materialTheme :=
              some (createMaterialTheme e (a : Int) Variant.FIDELITY 0 converted) },
            none) ∧
      (createMaterialTheme e (a : Int) Variant.FIDELITY 0 converted).customColors.length
        = ccs.length ∧
      (createMaterialTheme e (a : Int) Variant.FIDELITY 0 converted).customColors.map
          (fun g => g.color.name) = ccs.map (fun cdef => cdef.name)) ∧
    (argbFromHex sourceColor = Except.ok a →
      themeGenerationEffect e st sourceColor Variant.FIDELITY ccs
        = ({ materialTheme :=
              some (createMaterialTheme e (a : Int) Variant.FIDELITY 0 []) },
            none) ∧
      (createMaterialTheme e (a : Int) Variant.FIDELITY 0 []).customColors = []) := by
  constructor
  · intro ha hc
    obtain ⟨hlen, hnames⟩ := convertCustomColors_preserves ccs converted hc
    refine ⟨by simp [themeGenerationEffectWithCustoms, ha, hc], ?_, ?_⟩
    · rw [createMaterialTheme_customColors, List.length_map]
      exact hlen
    · rw [createMaterialTheme_customColors]
      exact (customColors_names e (a : Int) converted).trans hnames
  · intro ha
    exact ⟨by simp [themeGenerationEffect, ha], rfl⟩

/-- Claim C8 witness: the amended theorem applied at the end-to-end source
color and a single brand custom color. -/
theorem custom_colors_rebuild_witness :
    argbFromHex "#006494" = Except.ok 0xFF006494 ∧
    convertCustomColors [{ name := "brand", value := "#ff0000", blend := true }]
      = Except.ok [{ name := "brand", value := 0xFFFF0000, blend := true }] ∧
    (createMaterialTheme modelEngine (0xFF006494 : Int) Variant.FIDELITY 0
        [{ name := "brand", value := 0xFFFF0000, blend := true }]).customColors.map
      (fun g => g.color.name) = ["brand"] := by
  refine ⟨rfl, rfl, ?_⟩
  exact ((custom_colors_rebuild modelEngine { materialTheme := none } "#006494"
    [{ name := "brand", value := "#ff0000", blend := true }] 0xFF006494
    [{ name := "brand", value := 0xFFFF0000, blend := true }]).1 rfl rfl).2.2

/-! ## Claim C9 -/

/-- Claim C9: with the part_000 context (created with a defined default
value), useMaterialTheme never throws: outside any provider it returns the
default object with a null theme, a no-op setter and a null scheme, and with
any provider value present it returns that value, so the guard is
unreachable; with the src/src context (default undefined), the same call
outside a provider throws the guard error. -/
theorem use_material_theme_default_behavior :
    (∀ providerValue : Option MaterialThemeContextType,
      useMaterialThemeHook materialThemeContextDefaultPart000 providerValue
        = Except.ok ((useContextValue materialThemeContextDefaultPart000
            providerValue).getD contextDefaultValue)) ∧
    useMaterialThemeHook materialThemeContextDefaultPart000 none
      = Except.ok contextDefaultValue ∧
    contextDefaultValue.materialTheme = none ∧
    contextDefaultValue.currentScheme = none ∧
    (∀ s : String, contextDefaultValue.setSourceColor s = ()) ∧
    useMaterialThemeHook materialThemeContextDefaultSrc none
      = Except.error "useMaterialTheme must be used within a MaterialThemeProvider" := by
  refine ⟨?_, rfl, rfl, rfl, fun s => rfl, rfl⟩
  intro pv
  cases pv with
  | none => rfl
  | some v => rfl
